import Mathlib

/-
Verification of the kanikamera capture-orchestration engine.

Shallow embedding of:
  src/kanikamera/camera.py        (ImageManagerBase, StillImageManager, VideoManager)
  src/kanikamera.py               (legacy script: capture_and_upload)
  src/kanikamera/__main__.py      (capture_with_camera / upload_image / capture_and_upload)
  src/kanikamera/motionsensor.py  (MotionSensor.__init__ / close)

External effects (the PiCamera driver, the avconv subprocess, the wall clock,
Dropbox) are modelled as oracle inputs: each run takes a record of outcomes for
the external calls it performs, and produces the list of observable events the
code emits together with its result (normal return, no-capture, or a raised
exception).
-/

namespace Kanikamera

/-- Wall-clock fields read from `time.localtime()`: hour of day (0-23) and
weekday (`tm_wday`, Monday = 0). -/
structure Tm where
  tm_hour : Nat
  tm_wday : Nat
deriving DecidableEq

/-- A wall-clock instant as returned by `datetime.now()`, with the fields the
code formats via `strftime`. -/
structure DT where
  year : Nat
  month : Nat
  day : Nat
  hour : Nat
  minute : Nat
  second : Nat
deriving DecidableEq

/-- Zero-padded two-digit rendering, as `strftime` does for `%m %d %H %M %S`. -/
def pad2 (n : Nat) : String :=
  if n < 10 then "0" ++ toString n else toString n

/-- Zero-padded four-digit rendering, as `strftime` does for `%Y`. -/
def pad4 (n : Nat) : String :=
  if n < 10 then "000" ++ toString n
  else if n < 100 then "00" ++ toString n
  else if n < 1000 then "0" ++ toString n
  else toString n

/-- Rendering of `now.strftime("%Y%m%d")`. -/
def fmt_date (t : DT) : String :=
  pad4 t.year ++ pad2 t.month ++ pad2 t.day

/-- Rendering of `now.strftime("%H%M%S")`. -/
def fmt_time (t : DT) : String :=
  pad2 t.hour ++ pad2 t.minute ++ pad2 t.second

/-- The upload target built by `upload_image` (camera.py line 92, and the
identical format string in kanikamera.py and `__main__.py`):
`"/Kanikuvat/{}/{}.{}".format(now.strftime("%Y%m%d"), now.strftime("%H%M%S"), format)`
where `now` is the `datetime.now()` sample taken inside the upload routine. -/
def upload_path (now : DT) (format : String) : String :=
  "/Kanikuvat/" ++ fmt_date now ++ "/" ++ fmt_time now ++ "." ++ format

/-- Kind of a capture job. -/
inductive Kind
  | still
  | video
deriving DecidableEq

/-- File extension per kind, per the spec (jpg for still, mp4 for video). -/
def spec_ext : Kind → String
  | Kind.still => "jpg"
  | Kind.video => "mp4"

/-- Modelled from the spec (section 3, UploadTarget): the upload target derived
deterministically from the CAPTURE timestamp and the kind. Used as the
reference against which the code's actual target computation is compared. -/
def spec_upload_target (captureTs : DT) (k : Kind) : String :=
  "/Kanikuvat/" ++ fmt_date captureTs ++ "/" ++ fmt_time captureTs ++ "." ++ spec_ext k

/-- Exceptions relevant to the embedded code paths. -/
inductive Err
  | piCamera      -- PiCameraError (also covers the NameError raised by the
                  -- unbound name in the open step, see `still_body`)
  | cancelled     -- asyncio.CancelledError
  | runtimeError  -- RuntimeError from releasing an unlocked asyncio.Lock
  | typeError     -- TypeError from awaiting the None the wrapper returns
deriving DecidableEq

/-- Observable events emitted by a run. -/
inductive Ev
  | lockAcquire                 -- cls._camera_lock acquired
  | lockRelease                 -- cls._camera_lock released
  | cameraOpen                  -- PiCamera device opened
  | cameraClose                 -- camera.close()
  | spawnEncoder                -- subprocess.Popen of avconv
  | record (seconds : ℚ)        -- camera.wait_recording(video_duration)
  | upload (format : String) (payload : List Nat) (path : String)
                                -- dropbox.files_upload(payload, path)
deriving DecidableEq

/-- Result of a run of a gated method. -/
inductive Res
  | noCapture        -- the wrapper returned None (policy reject)
  | returned         -- the coroutine ran to completion
  | raised (e : Err) -- an exception propagated out of the awaited coroutine
deriving DecidableEq

/-- The upload calls occurring in an event trace (format, payload, path). -/
def uploads_of : List Ev → List (String × List Nat × String)
  | [] => []
  | Ev.upload f p pa :: es => (f, p, pa) :: uploads_of es
  | _ :: es => uploads_of es

/-- Whether the camera lock is held at the end of a trace. -/
def lock_held_after (evs : List Ev) : Bool :=
  evs.foldl
    (fun b e =>
      match e with
      | Ev.lockAcquire => true
      | Ev.lockRelease => false
      | _ => b)
    false

/-- Whether the camera device is open at the end of a trace. -/
def camera_open_after (evs : List Ev) : Bool :=
  evs.foldl
    (fun b e =>
      match e with
      | Ev.cameraOpen => true
      | Ev.cameraClose => false
      | _ => b)
    false

/-- The policy test in `capture_with_camera` (camera.py line 60):
`now.tm_hour < 9 or now.tm_hour >= 17 or now.tm_wday >= 5`. -/
def not_office_hours (now : Tm) : Bool :=
  decide (now.tm_hour < 9) || decide (17 ≤ now.tm_hour) || decide (5 ≤ now.tm_wday)

/-- The `captures_image` wrapper (camera.py lines 47-84), as executed when the
decorated method is CALLED. Outside office hours it returns `None` (here
`none`) at once, emitting no event. Otherwise it evaluates
`func(self, Camera, ...)`; since `func` is an `async def`, this merely creates
the coroutine (here: returns the body unevaluated), so the wrapper's
`try ... except PiCameraError` around that call can never observe an exception
raised by the body. -/
def capture_with_camera {σ : Type} (body : σ → List Ev × Res) (now : Tm) :
    Option (σ → List Ev × Res) :=
  if not_office_hours now then none else some body

/-- Awaiting the value returned by the wrapped method, as the callers in
camera.py do (`await self._capture_still_image()` / `await self._capture_video()`).
If the wrapper returned `None` the await raises TypeError in the caller, with
no event having occurred; otherwise the coroutine body runs and any exception
it raises propagates to the awaiter. -/
def await_gated {σ : Type} (body : σ → List Ev × Res) (now : Tm) (o : σ) :
    List Ev × Res :=
  match capture_with_camera body now with
  | none => ([], Res.raised Err.typeError)
  | some f => f o

/-- Oracle for one run of `StillImageManager._capture_still_image`. -/
structure StillOracle where
  acquire : Option Err    -- some e: raised while awaiting cls._camera_lock.acquire()
  openOk : Bool           -- whether the open step of Camera.__aenter__ succeeds
  captureErr : Option Err -- camera.capture via run_in_executor: some e = raises
  captured : List Nat     -- the jpeg bytes left in the BytesIO on success
  uploadWall : DT         -- the datetime.now() sample taken inside upload_image

/-- Body of `StillImageManager._capture_still_image` (camera.py lines 131-138),
including the `Camera` context manager of the decorator (lines 66-79).

The open step models the evaluation of `PiCamera(**_camera_config)` in
`Camera.__aenter__`: any exception raised there (a PiCameraError from the
driver — or, in the source as written, the NameError from the unbound name
`_camera_config`, the local being spelled `camera_config`) takes the
`openOk = false` branch, in which the bare `except` releases the lock and
re-raises.

Because the name `_camera_config` is unbound in every execution, real runs of
the source always take the `openOk = false` branch: the `openOk = true` branch
models the open step as the code intends it and serves only the
universally-quantified statements, never a claim about a reachable execution.

If the task is cancelled while awaiting the lock (`acquire = some e`), the lock
was never acquired; the bare `except` then calls `release()` on the unheld
asyncio.Lock, which (uncontended) raises RuntimeError. (When another task holds
the lock, that `release()` instead releases the other task's lock — a hazard
outside this single-run model; claim C1's interleavings contain no
cancellation.)

On success the upload happens after the `async with` block has closed the
camera and released the lock. -/
def still_body (o : StillOracle) : List Ev × Res :=
  match o.acquire with
  | some _ => ([], Res.raised Err.runtimeError)
  | none =>
    if o.openOk then
      match o.captureErr with
      | some e =>
        ([Ev.lockAcquire, Ev.cameraOpen, Ev.cameraClose, Ev.lockRelease], Res.raised e)
      | none =>
        ([Ev.lockAcquire, Ev.cameraOpen, Ev.cameraClose, Ev.lockRelease,
          Ev.upload "jpg" o.captured (upload_path o.uploadWall "jpg")], Res.returned)
    else
      ([Ev.lockAcquire, Ev.lockRelease], Res.raised Err.piCamera)

/-- Oracle for one run of `VideoManager._capture_video`. -/
structure VideoOracle where
  startWall : DT          -- wall-clock instant at which the capture begins;
                          -- never read by the code, which samples the clock
                          -- afresh inside upload_image
  acquire : Option Err    -- some e: raised while awaiting the lock
  openOk : Bool           -- whether the open step of Camera.__aenter__ succeeds
  recordErr : Option Err  -- _record_video via run_in_executor: some e = raises
  rc : Int                -- avconv exit status observed after p.communicate
  encoded : List Nat      -- tmpdbx contents when avconv succeeded
  uploadWall : DT         -- the datetime.now() sample taken inside upload_image

/-- Body of `VideoManager._capture_video` (camera.py lines 192-212), including
the `Camera` context manager of the decorator. Inside the `async with`, avconv
is spawned and `_record_video` records for `dur` seconds
(`camera.wait_recording(self._video_duration)`); the `async with` then closes
the camera and releases the lock; `p.communicate` is awaited afterwards, and
the encoded file is uploaded if and only if the exit status is 0 (lines
207-212). A failure while recording propagates out of the `async with`, which
still closes the camera and releases the lock. As with `still_body`, real runs
of the source always take the `openOk = false` branch (the open step raises
NameError from the unbound `_camera_config`); the success branch models the
intended driver call and serves only universally-quantified statements. -/
def video_body (dur : ℚ) (o : VideoOracle) : List Ev × Res :=
  match o.acquire with
  | some _ => ([], Res.raised Err.runtimeError)
  | none =>
    if o.openOk then
      match o.recordErr with
      | some e =>
        ([Ev.lockAcquire, Ev.cameraOpen, Ev.spawnEncoder, Ev.cameraClose,
          Ev.lockRelease], Res.raised e)
      | none =>
        if o.rc = 0 then
          ([Ev.lockAcquire, Ev.cameraOpen, Ev.spawnEncoder, Ev.record dur,
            Ev.cameraClose, Ev.lockRelease,
            Ev.upload "mp4" o.encoded (upload_path o.uploadWall "mp4")], Res.returned)
        else
          ([Ev.lockAcquire, Ev.cameraOpen, Ev.spawnEncoder, Ev.record dur,
            Ev.cameraClose, Ev.lockRelease], Res.returned)
    else
      ([Ev.lockAcquire, Ev.lockRelease], Res.raised Err.piCamera)

/-- The firing test of `VideoManager._handle_motion_detected` (camera.py lines
181-182): `if (not self._last_motion_time or
motion_time - self._last_motion_time > self._motionless_period)`. Python
truthiness makes `not last` true both when `_last_motion_time` is None (never
set) and when it is exactly 0.0. -/
def motion_fires (last : Option ℚ) (period t : ℚ) : Bool :=
  match last with
  | none => true
  | some l => decide (l = 0) || decide (t - l > period)

/-- One iteration of the VideoManager event loop (`__call__` driving
`_handle_motion_detected`, camera.py lines 164-185), as the program actually
executes it. The accumulator is (stored `_last_motion_time`, task alive, times
at which a capture was attempted). A dead task processes nothing. A live task
evaluates the line-181 debounce test: if it does not fire, line 185 stores the
event time and the loop continues. If it fires, the task awaits
`self._capture_video()` — and in the source as written that await always
raises: outside office hours the sync wrapper returned None and awaiting None
raises TypeError; inside office hours `Camera.__aenter__` raises NameError
from the unbound `_camera_config` (re-raised after the lock release) — so the
line-185 update is skipped and the exception escapes `__call__`, which
suppresses only CancelledError: the task dies. -/
def video_loop_step (period : ℚ) (acc : Option ℚ × Bool × List ℚ) (t : ℚ) :
    Option ℚ × Bool × List ℚ :=
  if acc.2.1 then
    if motion_fires acc.1 period t then (acc.1, false, acc.2.2 ++ [t])
    else (some t, true, acc.2.2)
  else acc

/-- Run the VideoManager event loop on a sequence of motion-event loop times,
starting from `_last_motion_time = None` and a live task. Returns the times at
which a capture was attempted and whether the task is still alive at the
end. -/
def run_motions_program (period : ℚ) (ts : List ℚ) : List ℚ × Bool :=
  let fin := ts.foldl (video_loop_step period) ((none : Option ℚ), true, ([] : List ℚ))
  (fin.2.2, fin.2.1)

lemma video_loop_dead (period : ℚ) (ts : List ℚ) (last : Option ℚ)
    (att : List ℚ) :
    ts.foldl (video_loop_step period) (last, false, att) = (last, false, att) := by
  induction ts with
  | nil => rfl
  | cons t ts ih => simpa [video_loop_step] using ih

lemma run_motions_program_cons (period t : ℚ) (ts : List ℚ) :
    run_motions_program period (t :: ts) = ([t], false) := by
  unfold run_motions_program
  simp [List.foldl_cons, video_loop_step, motion_fires, video_loop_dead]

/-- Oracle for one run of the synchronous script capture paths
(src/kanikamera.py `capture_and_upload`, src/kanikamera/__main__.py
`capture_and_upload`). -/
structure ScriptOracle where
  cameraFails : Bool  -- PiCamera open or capture raises PiCameraError;
                      -- modelled as leaving the BytesIO buffer empty
  captured : List Nat -- jpeg bytes written into the buffer on success
  uploadWall : DT     -- the datetime.now() sample taken before the upload

/-- src/kanikamera.py `capture_and_upload` (lines 31-45): the PiCameraError is
caught and logged, and the buffer contents — empty when the camera failed —
are uploaded unconditionally. -/
def script_capture_and_upload (o : ScriptOracle) : List Ev :=
  (if o.cameraFails then [] else [Ev.cameraOpen, Ev.cameraClose]) ++
    [Ev.upload "jpg" (if o.cameraFails then [] else o.captured)
      (upload_path o.uploadWall "jpg")]

/-- src/kanikamera/__main__.py `capture_and_upload` (lines 50-78, via
`capture_with_camera` and `upload_image`): identical structure — the
PiCameraError is caught inside `capture_with_camera`, which returns the
(possibly empty) buffer, and `upload_image` is then called unconditionally. -/
def main_capture_and_upload (o : ScriptOracle) : List Ev :=
  (if o.cameraFails then [] else [Ev.cameraOpen, Ev.cameraClose]) ++
    [Ev.upload "jpg" (if o.cameraFails then [] else o.captured)
      (upload_path o.uploadWall "jpg")]

/-- src/kanikamera.py `capture_and_upload` with the wall-clock instant at
which the capture begins carried alongside as ghost state: the code never
reads it — the target path is computed from the fresh `datetime.now()` sample
(`o.uploadWall`) taken at line 37 only after the capture has completed.
Defined as exactly the untimed run, so independence from the capture instant
is definitional. -/
def script_capture_and_upload_timed (_startWall : DT) (o : ScriptOracle) :
    List Ev :=
  script_capture_and_upload o

/-- GPIO library calls made by the MotionSensor embedding. -/
inductive GpioEv
  | setmode
  | setup (pin : Nat)
  | addEventDetect (pin : Nat)
  | addEventCallback (pin : Nat)
  | cleanup (pin : Nat)
deriving DecidableEq

/-- `MotionSensor.__init__` (motionsensor.py lines 24-43): when the
configuration has a "gpio" key with pin number `n`, the pin is stored and edge
detection is set up on it; otherwise `self.gpio` is set to None and nothing is
set up. Returns the stored `self.gpio` and the GPIO calls performed. -/
def motion_sensor_init (config_gpio : Option Nat) : Option Nat × List GpioEv :=
  match config_gpio with
  | some n =>
    (some n, [GpioEv.setmode, GpioEv.setup n, GpioEv.addEventDetect n,
              GpioEv.addEventCallback n])
  | none => (none, [])

/-- `MotionSensor.close` (motionsensor.py lines 51-56): `if self.gpio:` —
Python truthiness, so cleanup runs only when the stored pin is present and
nonzero. -/
def motion_sensor_close (gpio : Option Nat) : List GpioEv :=
  match gpio with
  | some n => if n ≠ 0 then [GpioEv.cleanup n] else []
  | none => []

/-- Phase of one task with respect to the gated critical section of
`captures_image`: outside any gated call; suspended in
`await cls._camera_lock.acquire()`; between a successful acquire and the open
step's outcome; holding the live camera handle (`__aenter__` succeeded,
`__aexit__` not yet run). -/
inductive Phase
  | idle
  | waiting
  | opening
  | holding
deriving DecidableEq

/-- System state for the interleaving model: the shared
`ImageManagerBase._camera_lock` (camera.py line 34), annotated with the task it
was granted to, and the phase of each of the two tasks (the still-image task
and the video task, both decorated with `ImageManagerBase.captures_image`, so
`cls` — and hence the lock — is the same object in both). -/
structure Sys where
  lock : Option (Fin 2)
  phase : Fin 2 → Phase

/-- Initial state: lock free, both tasks outside the gate. -/
def sysInit : Sys :=
  { lock := none, phase := fun _ => Phase.idle }

/-- Interleaving steps generated by timer ticks and motion events (no
cancellation, per claim C1's scope):
a tick/motion event makes an idle task enter the gate and suspend on the lock;
a waiting task acquires the free lock (asyncio.Lock grants it to one waiter);
the open step either succeeds (the task now holds the live camera handle) or
raises, in which case the bare `except` releases the lock; `__aexit__` — run on
normal completion and on any exception from the callback alike — closes the
camera and releases the lock. -/
inductive Step : Sys → Sys → Prop
  | start (s : Sys) (i : Fin 2) :
      s.phase i = Phase.idle →
      Step s { lock := s.lock, phase := Function.update s.phase i Phase.waiting }
  | acquire (s : Sys) (i : Fin 2) :
      s.phase i = Phase.waiting → s.lock = none →
      Step s { lock := some i, phase := Function.update s.phase i Phase.opening }
  | openOk (s : Sys) (i : Fin 2) :
      s.phase i = Phase.opening →
      Step s { lock := s.lock, phase := Function.update s.phase i Phase.holding }
  | openFail (s : Sys) (i : Fin 2) :
      s.phase i = Phase.opening →
      Step s { lock := none, phase := Function.update s.phase i Phase.idle }
  | finish (s : Sys) (i : Fin 2) :
      s.phase i = Phase.holding →
      Step s { lock := none, phase := Function.update s.phase i Phase.idle }

/-- States reachable from the initial state under any interleaving. -/
inductive Reachable : Sys → Prop
  | init : Reachable sysInit
  | step {s t : Sys} : Reachable s → Step s t → Reachable t

/-- A task is inside the lock-protected critical section. -/
def InCrit (s : Sys) (i : Fin 2) : Prop :=
  s.phase i = Phase.opening ∨ s.phase i = Phase.holding

/-- Lock invariant: any task inside the critical section is the one the lock
was granted to. -/
def LockInv (s : Sys) : Prop :=
  ∀ i : Fin 2, InCrit s i → s.lock = some i

lemma lockInv_init : LockInv sysInit := by
  intro i h
  rcases h with h | h <;> simp [sysInit] at h

lemma lockInv_step {s t : Sys} (hs : LockInv s) (st : Step s t) : LockInv t := by
  cases st with
  | start i hph =>
    intro j hj
    by_cases hij : j = i
    · subst hij
      rcases hj with hj | hj <;> simp [Function.update] at hj
    · have hj2 : InCrit s j := by
        rcases hj with hj | hj <;>
          [exact Or.inl (by simpa [Function.update, hij] using hj);
           exact Or.inr (by simpa [Function.update, hij] using hj)]
      simpa using hs j hj2
  | acquire i hph hlock =>
    intro j hj
    by_cases hij : j = i
    · subst hij; rfl
    · have hj2 : InCrit s j := by
        rcases hj with hj | hj <;>
          [exact Or.inl (by simpa [Function.update, hij] using hj);
           exact Or.inr (by simpa [Function.update, hij] using hj)]
      have := hs j hj2
      rw [hlock] at this
      exact absurd this (by simp)
  | openOk i hph =>
    intro j hj
    by_cases hij : j = i
    · subst hij
      simpa using hs j (Or.inl hph)
    · have hj2 : InCrit s j := by
        rcases hj with hj | hj <;>
          [exact Or.inl (by simpa [Function.update, hij] using hj);
           exact Or.inr (by simpa [Function.update, hij] using hj)]
      simpa using hs j hj2
  | openFail i hph =>
    intro j hj
    by_cases hij : j = i
    · subst hij
      rcases hj with hj | hj <;> simp [Function.update] at hj
    · have hj2 : InCrit s j := by
        rcases hj with hj | hj <;>
          [exact Or.inl (by simpa [Function.update, hij] using hj);
           exact Or.inr (by simpa [Function.update, hij] using hj)]
      have h1 := hs j hj2
      have h2 := hs i (Or.inl hph)
      rw [h2] at h1
      have : j = i := by simpa using h1.symm
      exact absurd this hij
  | finish i hph =>
    intro j hj
    by_cases hij : j = i
    · subst hij
      rcases hj with hj | hj <;> simp [Function.update] at hj
    · have hj2 : InCrit s j := by
        rcases hj with hj | hj <;>
          [exact Or.inl (by simpa [Function.update, hij] using hj);
           exact Or.inr (by simpa [Function.update, hij] using hj)]
      have h1 := hs j hj2
      have h2 := hs i (Or.inr hph)
      rw [h2] at h1
      have : j = i := by simpa using h1.symm
      exact absurd this hij

lemma reachable_lockInv {s : Sys} (h : Reachable s) : LockInv s := by
  induction h with
  | init => exact lockInv_init
  | step _ st ih => exact lockInv_step ih st

lemma not_office_hours_true {now : Tm}
    (h : now.tm_hour < 9 ∨ 17 ≤ now.tm_hour ∨ 5 ≤ now.tm_wday) :
    not_office_hours now = true := by
  simp only [not_office_hours, Bool.or_eq_true, decide_eq_true_eq]
  tauto

/-- A weekday mid-morning instant (Monday, 10:00), inside the policy window. -/
def tmOffice : Tm := ⟨10, 0⟩

/-- A weekday evening instant (Tuesday, 20:00), outside the policy window. -/
def tmEvening : Tm := ⟨20, 1⟩

/-- A concrete wall-clock instant used by the witnesses. -/
def dt0 : DT := ⟨2017, 1, 2, 10, 0, 0⟩

def oStillDemo : StillOracle := ⟨none, true, none, [1, 2], dt0⟩

def oVideoDemo : VideoOracle := ⟨dt0, none, true, none, 0, [3], dt0⟩

/-- A video-capture oracle as every real execution of the source has it: the
open step fails (NameError from the unbound `_camera_config`). -/
def oVideoReal : VideoOracle := ⟨dt0, none, false, none, 0, [], dt0⟩

/-- A second real-execution video oracle (open step fails), with different
remaining fields. -/
def oVideoReal2 : VideoOracle := ⟨dt0, none, false, none, 1, [2], dt0⟩

lemma video_body_open_raises (dur : ℚ) (now : Tm) (o : VideoOracle)
    (h : o.openOk = false) :
    (∃ e, (await_gated (video_body dur) now o).2 = Res.raised e) ∧
    Ev.cameraOpen ∉ (await_gated (video_body dur) now o).1 ∧
    uploads_of (await_gated (video_body dur) now o).1 = [] := by
  obtain ⟨sw, a, op, re, rc, enc, w⟩ := o
  simp only at h
  subst h
  cases hn : not_office_hours now
  · cases a with
    | none =>
      refine ⟨⟨Err.piCamera, ?_⟩, ?_, ?_⟩ <;>
        simp [await_gated, capture_with_camera, video_body, hn, uploads_of]
    | some e0 =>
      refine ⟨⟨Err.runtimeError, ?_⟩, ?_, ?_⟩ <;>
        simp [await_gated, capture_with_camera, video_body, hn, uploads_of]
  · refine ⟨⟨Err.typeError, ?_⟩, ?_, ?_⟩ <;>
      simp [await_gated, capture_with_camera, hn, uploads_of]

/-- C1: under every interleaving of timer ticks and motion events (no
cancellation), at most one task is holding the live camera handle — inside the
gated capture with `Camera.__aenter__` succeeded and `__aexit__` not yet run —
at any reachable state: two holders coincide. -/
theorem C1_camera_mutual_exclusion (s : Sys) (i j : Fin 2)
    (hs : Reachable s) (hi : s.phase i = Phase.holding)
    (hj : s.phase j = Phase.holding) : i = j := by
  have h1 := reachable_lockInv hs i (Or.inr hi)
  have h2 := reachable_lockInv hs j (Or.inr hj)
  exact Option.some.inj (h1.symm.trans h2)

/-- Witness for C1: a state in which task 0 holds the camera is reachable
(start, acquire, open), so the mutual-exclusion theorem is not vacuous. -/
theorem C1_camera_mutual_exclusion_witness : (0 : Fin 2) = 0 := by
  have h0 : Reachable sysInit := Reachable.init
  have h1 := Reachable.step h0 (Step.start sysInit 0 rfl)
  have h2 := Reachable.step h1 (Step.acquire _ 0 (by simp) (by simp [sysInit]))
  have h3 := Reachable.step h2 (Step.openOk _ 0 (by simp))
  exact C1_camera_mutual_exclusion _ 0 0 h3 (by simp) (by simp)

/-- C2: for every timestamp outside the policy window (hour below 9, hour at
or above 17, or a weekend day), calling a method decorated with
`captures_image` returns `None` at once and the whole gated call produces no
event: the callback never runs, the camera lock is never acquired, and the
camera device is never opened. -/
theorem C2_policy_window_gates_capture (now : Tm) (oS : StillOracle) (dur : ℚ)
    (oV : VideoOracle)
    (h : now.tm_hour < 9 ∨ 17 ≤ now.tm_hour ∨ 5 ≤ now.tm_wday) :
    capture_with_camera still_body now = none ∧
    capture_with_camera (video_body dur) now = none ∧
    (await_gated still_body now oS).1 = [] ∧
    (await_gated (video_body dur) now oV).1 = [] := by
  have hN := not_office_hours_true h
  refine ⟨?_, ?_, ?_, ?_⟩ <;> simp [capture_with_camera, await_gated, hN]

/-- Witness for C2 at Tuesday 20:00. -/
theorem C2_policy_window_gates_capture_witness :
    capture_with_camera still_body tmEvening = none ∧
    capture_with_camera (video_body 60) tmEvening = none ∧
    (await_gated still_body tmEvening oStillDemo).1 = [] ∧
    (await_gated (video_body 60) tmEvening oVideoDemo).1 = [] :=
  C2_policy_window_gates_capture tmEvening oStillDemo 60 oVideoDemo
    (Or.inr (Or.inl (by decide)))

/-- C3 counterexample: with T = 2, t₀ = 1, ε = 1 the motion events arrive at
loop times 1, 2 and 4 = t₀ + T + ε. The program attempts a capture only at
the first event; that attempt raises and kills the VideoManager task, so the
events at 2 and 4 are never processed — in particular the event at t₀ + T + ε
does not start a new recording — and even the first event's attempt never
opens the camera, so no recording starts at t₀ either. -/
theorem C3_counterexample :
    run_motions_program 2 [1, 2, 4] = ([(1 : ℚ)], false) ∧
    (4 : ℚ) ∉ (run_motions_program 2 [1, 2, 4]).1 ∧
    Ev.cameraOpen ∉ (await_gated (video_body 60) tmOffice oVideoReal).1 := by
  have h : run_motions_program 2 [1, 2, 4] = ([(1 : ℚ)], false) :=
    run_motions_program_cons 2 1 [2, 4]
  refine ⟨h, ?_, ?_⟩
  · rw [h]
    show (4 : ℚ) ∉ [(1 : ℚ)]
    simp only [List.mem_singleton]
    norm_num
  · simp [await_gated, capture_with_camera, video_body, oVideoReal, tmOffice,
      not_office_hours]

/-- C3 (amended): with motionlessPeriod = T, the first motion-detected event
(at t₀, with no prior recorded motion) passes the debounce test and the task
awaits `self._capture_video()`; in the source as written that await always
raises — TypeError outside office hours from awaiting the None the sync
wrapper returned, NameError inside office hours from the unbound
`_camera_config`, re-raised after the lock release and before any camera is
opened — so the line-185 timestamp update is skipped and the exception kills
the VideoManager task: no recording ever starts, and no later event (at
t₀ + ε, at t₀ + T + ε, or at any other time) is processed at all. -/
theorem C3_amended_first_firing_kills_task (T t : ℚ) (ts : List ℚ) (dur : ℚ)
    (now : Tm) (o : VideoOracle) (h : o.openOk = false) :
    run_motions_program T (t :: ts) = ([t], false) ∧
    (∃ e, (await_gated (video_body dur) now o).2 = Res.raised e) ∧
    Ev.cameraOpen ∉ (await_gated (video_body dur) now o).1 :=
  ⟨run_motions_program_cons T t ts,
   (video_body_open_raises dur now o h).1,
   (video_body_open_raises dur now o h).2.1⟩

/-- Witness for C3 (amended) at T = 2, events 1, 2, 4, with the real-execution
video oracle during office hours. -/
theorem C3_amended_first_firing_kills_task_witness :
    run_motions_program 2 [1, 2, 4] = ([(1 : ℚ)], false) ∧
    (∃ e, (await_gated (video_body 60) tmOffice oVideoReal).2 = Res.raised e) ∧
    Ev.cameraOpen ∉ (await_gated (video_body 60) tmOffice oVideoReal).1 :=
  C3_amended_first_firing_kills_task 2 1 [2, 4] 60 tmOffice oVideoReal rfl

/-- C4 counterexample: with motionlessPeriod = 1800 and motion events at loop
times 0, 900, 1900, the program attempts a capture only at t = 0; that
attempt — during office hours, in the source as written — acquires and
releases the lock and raises without ever opening the camera, recording
anything or uploading anything, and the exception kills the VideoManager
task, so the events at 900 and 1900 are never processed: no 60-second clip is
recorded or uploaded for the event at t = 0, and no second recording happens
at t = 1900. -/
theorem C4_counterexample :
    run_motions_program 1800 [0, 900, 1900] = ([(0 : ℚ)], false) ∧
    await_gated (video_body 60) tmOffice oVideoReal =
      ([Ev.lockAcquire, Ev.lockRelease], Res.raised Err.piCamera) ∧
    uploads_of (await_gated (video_body 60) tmOffice oVideoReal).1 = [] :=
  ⟨run_motions_program_cons 1800 0 [900, 1900], rfl, rfl⟩

/-- C4 (amended): with motionlessPeriod = 1800 s and videoDuration = 60 s and
motion events at loop times 0, 900, 1900: the event at t = 0 passes the
debounce test (no prior motion) and a capture is attempted; every capture
attempt whose open step fails — as it always does in the source as written —
uploads nothing, never opens the camera (so nothing is recorded), and raises,
killing the task: the events at 900 and 1900 are never processed and the
last-motion timestamp is never stored. -/
theorem C4_amended_end_to_end :
    run_motions_program 1800 [0, 900, 1900] = ([(0 : ℚ)], false) ∧
    (∀ (now : Tm) (dur : ℚ) (o : VideoOracle), o.openOk = false →
      uploads_of (await_gated (video_body dur) now o).1 = [] ∧
      Ev.cameraOpen ∉ (await_gated (video_body dur) now o).1 ∧
      ∃ e, (await_gated (video_body dur) now o).2 = Res.raised e) := by
  refine ⟨run_motions_program_cons 1800 0 [900, 1900], ?_⟩
  intro now dur o h
  obtain ⟨h1, h2, h3⟩ := video_body_open_raises dur now o h
  exact ⟨h3, h2, h1⟩

/-- Witness for C4 (amended): the real-execution video oracle, outside office
hours with a 45-second duration, uploads nothing, opens no camera and
raises. -/
theorem C4_amended_end_to_end_witness :
    uploads_of (await_gated (video_body 45) tmEvening oVideoReal).1 = [] ∧
    Ev.cameraOpen ∉ (await_gated (video_body 45) tmEvening oVideoReal).1 ∧
    ∃ e, (await_gated (video_body 45) tmEvening oVideoReal).2 = Res.raised e :=
  C4_amended_end_to_end.2 tmEvening 45 oVideoReal rfl

def oC5 : StillOracle := ⟨none, true, some Err.piCamera, [], dt0⟩

/-- C5: evaluation of the code at the failing input — office hours (Monday
10:00), the camera opens, and `camera.capture` raises PiCameraError. The
result of awaiting the gated operation is the raised PiCameraError itself: the
error propagates to the awaiting caller instead of being caught at the
wrapper, whose `except PiCameraError` guards only the creation of the
coroutine and can never fire. -/
theorem C5_driver_error_reaches_awaiter :
    await_gated still_body tmOffice oC5 =
      ([Ev.lockAcquire, Ev.cameraOpen, Ev.cameraClose, Ev.lockRelease],
        Res.raised Err.piCamera) := rfl

lemma still_body_exit_clean (o : StillOracle) :
    lock_held_after (still_body o).1 = false ∧
    camera_open_after (still_body o).1 = false := by
  obtain ⟨a, op, ce, cap, w⟩ := o
  cases a <;> cases op <;> cases ce <;>
    simp [still_body, lock_held_after, camera_open_after]

lemma video_body_exit_clean (dur : ℚ) (o : VideoOracle) :
    lock_held_after (video_body dur o).1 = false ∧
    camera_open_after (video_body dur o).1 = false := by
  obtain ⟨sw, a, op, re, rc, enc, w⟩ := o
  cases a <;> cases op <;> cases re <;> by_cases hrc : rc = 0 <;>
    simp [video_body, lock_held_after, camera_open_after, hrc]

/-- C6: on every exit path of the gated capture operation — normal return,
failure of the open step (including the camera failing to initialize),
a driver error raised by the callback, or cancellation at a suspension point —
the final trace leaves the camera lock not held and the camera device not
open. Stated for the still-image body and the video body over all oracle
outcomes. -/
theorem C6_teardown_on_every_exit (now : Tm) (oS : StillOracle) (dur : ℚ)
    (oV : VideoOracle) :
    lock_held_after (await_gated still_body now oS).1 = false ∧
    camera_open_after (await_gated still_body now oS).1 = false ∧
    lock_held_after (await_gated (video_body dur) now oV).1 = false ∧
    camera_open_after (await_gated (video_body dur) now oV).1 = false := by
  have hS := still_body_exit_clean oS
  have hV := video_body_exit_clean dur oV
  cases hn : not_office_hours now
  · simpa [await_gated, capture_with_camera, hn] using ⟨hS.1, hS.2, hV.1, hV.2⟩
  · simp [await_gated, capture_with_camera, hn, lock_held_after,
      camera_open_after]

/-- C7: for every video capture job in which avconv exits with nonzero status,
no call reaches the uploader: the upload happens only under
`p.returncode == 0`. -/
theorem C7_no_upload_on_nonzero_exit (dur : ℚ) (now : Tm) (o : VideoOracle)
    (h : o.rc ≠ 0) :
    uploads_of (await_gated (video_body dur) now o).1 = [] := by
  obtain ⟨sw, a, op, re, rc, enc, w⟩ := o
  simp only at h
  cases hn : not_office_hours now <;> cases a <;> cases op <;> cases re <;>
    simp [await_gated, capture_with_camera, video_body, hn, h, uploads_of]

def oC7 : VideoOracle := ⟨dt0, none, true, none, 1, [9], dt0⟩

/-- Witness for C7: a concrete job whose encoder exits with status 1 uploads
nothing. -/
theorem C7_no_upload_on_nonzero_exit_witness :
    uploads_of (await_gated (video_body 60) tmOffice oC7).1 = [] :=
  C7_no_upload_on_nonzero_exit 60 tmOffice oC7 (by decide)

def oScriptFail : ScriptOracle := ⟨true, [1, 2, 3], dt0⟩

/-- C8 counterexample: in src/kanikamera.py `capture_and_upload`, a run in
which the camera open fails (the PiCameraError is caught and logged) still
hands the buffer — now empty — to `dropbox.files_upload`: an upload with an
empty payload reaches the uploader, refuting the invariant. -/
theorem C8_counterexample :
    uploads_of (script_capture_and_upload oScriptFail) =
      [("jpg", [], upload_path dt0 "jpg")] ∧
    ¬ (∀ u ∈ uploads_of (script_capture_and_upload oScriptFail),
        u.2.1 ≠ ([] : List Nat)) := by
  constructor
  · rfl
  · decide

/-- C8 (amended): the invariant holds for the async still-image manager in
camera.py — a cycle in which the camera open step fails, or in which
`camera.capture` raises, performs no upload call at all — but not for the
script entry points: both src/kanikamera.py and `__main__.py`
`capture_and_upload` hand the empty payload to the uploader when the camera
fails. -/
theorem C8_amended_payload_invariant :
    (∀ (now : Tm) (o : StillOracle), o.openOk = false →
      uploads_of (await_gated still_body now o).1 = []) ∧
    (∀ (now : Tm) (o : StillOracle) (e : Err), o.captureErr = some e →
      uploads_of (await_gated still_body now o).1 = []) ∧
    (∀ o : ScriptOracle, o.cameraFails = true →
      uploads_of (script_capture_and_upload o) =
        [("jpg", [], upload_path o.uploadWall "jpg")]) ∧
    (∀ o : ScriptOracle, o.cameraFails = true →
      uploads_of (main_capture_and_upload o) =
        [("jpg", [], upload_path o.uploadWall "jpg")]) := by
  refine ⟨?_, ?_, ?_, ?_⟩
  · intro now o h
    obtain ⟨a, op, ce, cap, w⟩ := o
    simp only at h
    subst h
    cases hn : not_office_hours now <;> cases a <;> cases ce <;>
      simp [await_gated, capture_with_camera, still_body, hn, uploads_of]
  · intro now o e h
    obtain ⟨a, op, ce, cap, w⟩ := o
    simp only at h
    subst h
    cases hn : not_office_hours now <;> cases a <;> cases op <;>
      simp [await_gated, capture_with_camera, still_body, hn, uploads_of]
  · intro o h
    obtain ⟨cf, cap, w⟩ := o
    simp only at h
    subst h
    simp [script_capture_and_upload, uploads_of]
  · intro o h
    obtain ⟨cf, cap, w⟩ := o
    simp only at h
    subst h
    simp [main_capture_and_upload, uploads_of]

def oStillNoOpen : StillOracle := ⟨none, false, none, [7], dt0⟩

/-- Witness for C8 (amended): a still cycle whose camera open step fails
uploads nothing. -/
theorem C8_amended_payload_invariant_witness :
    uploads_of (await_gated still_body tmOffice oStillNoOpen).1 = [] :=
  C8_amended_payload_invariant.1 tmOffice oStillNoOpen rfl

def dtStartC9 : DT := ⟨2017, 1, 2, 9, 59, 59⟩

def dtUploadC9 : DT := ⟨2017, 1, 2, 10, 0, 1⟩

def oScriptC9 : ScriptOracle := ⟨false, [1], dtUploadC9⟩

/-- C9 counterexample: a reachable run of the kanikamera.py script path whose
capture begins at 09:59:59 and whose `datetime.now()` sample — taken at line
37, after the multi-second PiCamera capture has completed — reads 10:00:01,
uploads the job to /Kanikuvat/20170102/100001.jpg, which differs from the path
derived from the capture timestamp, /Kanikuvat/20170102/095959.jpg: the target
is not a function of the capture timestamp. -/
theorem C9_counterexample :
    uploads_of (script_capture_and_upload_timed dtStartC9 oScriptC9) =
      [("jpg", [1], upload_path dtUploadC9 "jpg")] ∧
    upload_path dtUploadC9 "jpg" ≠ spec_upload_target dtStartC9 Kind.still := by
  constructor
  · rfl
  · decide

/-- C9 (amended): every upload the program performs comes from the script
still path, and its target is computed deterministically as
/Kanikuvat/<YYYYMMDD>/<HHMMSS>.jpg from the `datetime.now()` sample taken
after the capture completes — independent of the instant at which the capture
began, which the code never records — fresh per job with no persisted state.
No video job ever reaches the uploader: every gated video capture in the
source as written fails its open step and uploads nothing. -/
theorem C9_amended_upload_target :
    (∀ (sw : DT) (o : ScriptOracle),
      uploads_of (script_capture_and_upload_timed sw o) =
        [("jpg", (if o.cameraFails then [] else o.captured),
          upload_path o.uploadWall "jpg")]) ∧
    (∀ (sw1 sw2 : DT) (o : ScriptOracle),
      script_capture_and_upload_timed sw1 o =
        script_capture_and_upload_timed sw2 o) ∧
    (∀ (now : Tm) (dur : ℚ) (o : VideoOracle), o.openOk = false →
      uploads_of (await_gated (video_body dur) now o).1 = []) := by
  refine ⟨?_, ?_, ?_⟩
  · intro sw o
    obtain ⟨cf, cap, w⟩ := o
    cases cf <;>
      simp [script_capture_and_upload_timed, script_capture_and_upload,
        uploads_of]
  · intro sw1 sw2 o
    rfl
  · intro now dur o h
    exact (video_body_open_raises dur now o h).2.2

/-- Witness for C9 (amended): a real-execution video oracle with a 30-second
duration uploads nothing. -/
theorem C9_amended_upload_target_witness :
    uploads_of (await_gated (video_body 30) tmOffice oVideoReal2).1 = [] :=
  C9_amended_upload_target.2.2 tmOffice 30 oVideoReal2 rfl

/-- C10: a MotionSensor configured with a "gpio" key stores the pin and sets
up edge detection on it, pin 0 included; `close()` performs GPIO cleanup
exactly when the stored pin is nonzero (Python truthiness of `self.gpio`), so
a sensor on pin 0 is initialized but never cleaned up by `close()`. -/
theorem C10_motion_sensor_gpio_zero (n : Nat) :
    motion_sensor_init (some n) =
      (some n, [GpioEv.setmode, GpioEv.setup n, GpioEv.addEventDetect n,
                GpioEv.addEventCallback n]) ∧
    motion_sensor_close (some n) = (if n = 0 then [] else [GpioEv.cleanup n]) ∧
    motion_sensor_close (some 0) = [] := by
  refine ⟨rfl, ?_, by decide⟩
  by_cases h : n = 0 <;> simp [motion_sensor_close, h]

end Kanikamera
